import Mathlib

/-!
# AdPlay/UNIX ALSA output backend (`src/alsa.cc`)

A shallow embedding of `ALSAPlayer` (constructor, destructor, `output`) as
trace-producing processes over a sound device whose answers are given by an
oracle record, followed by theorems about the diagnostics, device calls and
termination behaviour of each operation.
-/

namespace AdPlay

/-! ## Machine integers -/

/-- Conversion to `unsigned int` (32 bit). -/
def toUInt (i : Int) : Nat := (i % 2 ^ 32).toNat

/-- Conversion to `unsigned long` (64 bit), as in an implicit conversion of a
`long` operand compared against or passed as an `unsigned long`. -/
def toULong (i : Int) : Nat := (i % 2 ^ 64).toNat

/-- Conversion of an `unsigned long` value to `long` (64 bit, two's complement). -/
def toLong (n : Nat) : Int :=
  if n % 2 ^ 64 < 2 ^ 63 then ((n % 2 ^ 64 : Nat) : Int) else ((n % 2 ^ 64 : Nat) : Int) - 2 ^ 64

/-- Conversion of a `long` value to `int` (32 bit, two's complement), as in
passing a `snd_pcm_sframes_t` to `snd_strerror(int)`. -/
def toInt (i : Int) : Int :=
  if i % 2 ^ 32 < 2 ^ 31 then i % 2 ^ 32 else i % 2 ^ 32 - 2 ^ 32

/-! ## Observable events -/

/-- Modelled from the spec: the diagnostic levels of `defines.h` (not in src)
used by this file: error, warning and note. -/
inductive Level
  | MSG_ERROR
  | MSG_WARN
  | MSG_NOTE
  deriving DecidableEq

/-- An argument passed to `message` after the format string. -/
inductive Arg
  | str (s : String)
  | int (i : Int)
  | nat (n : Nat)
  | snd_strerror (errnum : Int)
  deriving DecidableEq

/-- Sample formats selected by the constructor. -/
inductive Format
  | SND_PCM_FORMAT_S16_LE
  | SND_PCM_FORMAT_S8
  deriving DecidableEq

/-- The sound-library calls made by `alsa.cc`, with the arguments that vary.
All `snd_pcm_*` calls act on the sink's own `pcm_handle`. -/
inductive Call
  | snd_pcm_hw_params_malloc
  | snd_pcm_open (name : String)
  | snd_pcm_hw_params_any
  | snd_pcm_hw_params_set_access
  | snd_pcm_hw_params_set_format (format : Format)
  | snd_pcm_hw_params_set_rate_near (val : Nat)
  | snd_pcm_hw_params_set_channels (val : Nat)
  | snd_pcm_hw_params_set_periods (val : Nat) (dir : Int)
  | snd_pcm_hw_params_set_buffer_size (val : Nat)
  | snd_pcm_hw_params_get_buffer_size
  | snd_pcm_hw_params
  | snd_output_stdio_attach
  | snd_pcm_dump_hw_setup
  | snd_pcm_hw_params_free
  | snd_pcm_writei (size : Nat)
  | snd_pcm_prepare
  | snd_pcm_drop
  | snd_pcm_close
  deriving DecidableEq

/-- What an operation does that is visible from outside: a library call
together with the result it reported, a diagnostic handed to `message`, or
the call of `exit`. -/
inductive Event
  | call (c : Call) (rc : Int)
  | message (level : Level) (fmt : String) (args : List Arg)
  | exit (status : Int)
  deriving DecidableEq

/-- How an operation ends: it returns to its caller, it terminates the
process through `exit`, or it executes an integer division by zero. -/
inductive Outcome (α : Type)
  | returned (a : α)
  | exited (status : Int)
  | undefined
  deriving DecidableEq

/-- A run of an operation: the events in program order and how it ended. -/
structure Proc (α : Type) where
  trace : List Event
  outcome : Outcome α

/-- Sequencing: the second part runs only when the first returned. -/
def Proc.bind {α β : Type} (m : Proc α) (f : α → Proc β) : Proc β :=
  match m.outcome with
  | .returned a => ⟨m.trace ++ (f a).trace, (f a).outcome⟩
  | .exited status => ⟨m.trace, .exited status⟩
  | .undefined => ⟨m.trace, .undefined⟩

instance : Monad Proc where
  pure a := ⟨[], .returned a⟩
  bind := Proc.bind

/-- A library call that reports `rc`. -/
def devcall (c : Call) (rc : Int) : Proc Int := ⟨[.call c rc], .returned rc⟩

/-- Modelled from the spec: `message` (declared in `defines.h`, not in src)
hands a levelled diagnostic to the logging sink and returns. -/
def message (level : Level) (fmt : String) (args : List Arg) : Proc Unit :=
  ⟨[.message level fmt args], .returned ()⟩

/-- The C library `exit`: the process terminates with `status`. -/
def exit {α : Type} (status : Int) : Proc α := ⟨[.exit status], .exited status⟩

/-- Integer division by zero. -/
def divisionByZero {α : Type} : Proc α := ⟨[], .undefined⟩

def EXIT_FAILURE : Int := 1

/-- Default ALSA output device. -/
def DEFAULT_DEVICE : String := "default"

/-! ## The device oracle -/

/-- The answers of the sound library to the calls of one operation: the
result of each call, and the values stored through the two out-parameters
(`nfreq` by `set_rate_near`, `nbufsize` by `get_buffer_size`; when the
library stores nothing this is the value the local variable already had). -/
structure Device where
  snd_pcm_hw_params_malloc : Int
  snd_pcm_open : Int
  snd_pcm_hw_params_any : Int
  snd_pcm_hw_params_set_access : Int
  snd_pcm_hw_params_set_format : Int
  snd_pcm_hw_params_set_rate_near : Int
  nfreq : Nat
  snd_pcm_hw_params_set_channels : Int
  snd_pcm_hw_params_set_periods : Int
  snd_pcm_hw_params_set_buffer_size : Int
  snd_pcm_hw_params_get_buffer_size : Int
  nbufsize : Nat
  snd_pcm_hw_params : Int
  snd_output_stdio_attach : Int
  snd_pcm_dump_hw_setup : Int
  snd_pcm_writei : Int
  snd_pcm_prepare : Int
  snd_pcm_drop : Int
  snd_pcm_close : Int

/-! ## The sink -/

/-- The state of the sink. Modelled from the spec: the fields are those the
`EmuPlayer` base class (not in src) keeps from its constructor arguments
`bits`, `channels`, `freq` and `bufsize`. -/
structure ALSAPlayer where
  bits : Nat
  channels : Int
  freq : Int
  buf_size : Nat
  deriving DecidableEq

/-- Modelled from the spec: `EmuPlayer::getsampsize` (not in src), bytes per
frame = channels × (sampleBits / 8). -/
def ALSAPlayer.getsampsize (self : ALSAPlayer) : Int := self.channels * ((self.bits / 8 : Nat) : Int)

/-- Modelled from the spec: `EmuPlayer::getbufsize` (not in src), the sink's
recorded buffer depth in frames. -/
def ALSAPlayer.getbufsize (self : ALSAPlayer) : Nat := self.buf_size

/-- Modelled from the spec: `EmuPlayer::setbufsize` (not in src), update the
sink's recorded buffer depth. -/
def ALSAPlayer.setbufsize (self : ALSAPlayer) (size : Nat) : ALSAPlayer := { self with buf_size := size }

/-- `ALSAPlayer::output(buf, size)`; `dev` answers the write and the prepare. -/
def ALSAPlayer.output (self : ALSAPlayer) (dev : Device) (size : Nat) : Proc Unit := do
  let samp_size : Nat := toUInt self.getsampsize
  let buf_size : Nat := self.getbufsize
  if samp_size = 0 then divisionByZero
  let frames_to_write : Int := toLong (size / samp_size)
  let buf_size_frames : Nat := buf_size
  if toULong frames_to_write > buf_size_frames then
    message .MSG_WARN "ALSA trying to push more frames (%ld) than buffer size (%ld)"
      [.int frames_to_write, .nat buf_size_frames]
  let written ← devcall (.snd_pcm_writei (toULong frames_to_write)) dev.snd_pcm_writei
  if written < 0 then
    let _ ← devcall .snd_pcm_prepare dev.snd_pcm_prepare
  if written ≠ frames_to_write then
    if written ≥ 0 then
      message .MSG_WARN "ALSA buffer underrun? to write %ld frames (samp_size %ld) written %ld"
        [.int frames_to_write, .nat samp_size, .int written]
    else
      message .MSG_WARN "ALSA write error: %s" [.snd_strerror (toInt written)]

/-- `ALSAPlayer::ALSAPlayer(nopl, device, bits, channels, freq, bufsize)`; an
absent `device` is the null pointer. Returns the constructed sink. -/
def ALSAPlayer.ctor (dev : Device) (device : Option String) (bits : Nat) (channels : Int)
    (freq : Int) (bufsize : Nat) : Proc ALSAPlayer := do
  let mut self : ALSAPlayer := { bits := bits, channels := channels, freq := freq, buf_size := bufsize }
  let mut nfreq : Nat := toUInt freq
  let samp_size : Nat := toUInt self.getsampsize
  let device : String := match device with
    | none => DEFAULT_DEVICE
    | some name => name
  let _ ← devcall .snd_pcm_hw_params_malloc dev.snd_pcm_hw_params_malloc
  -- Try to open audio device
  if (← devcall (.snd_pcm_open device) dev.snd_pcm_open) < 0 then
    message .MSG_ERROR "error opening PCM device -- %s" [.str device]
    exit EXIT_FAILURE
  -- Init hwparams with full configuration space
  if (← devcall .snd_pcm_hw_params_any dev.snd_pcm_hw_params_any) < 0 then
    message .MSG_ERROR "cannot configure this PCM device -- %s" [.str device]
    exit EXIT_FAILURE
  -- Set access type
  if (← devcall .snd_pcm_hw_params_set_access dev.snd_pcm_hw_params_set_access) < 0 then
    message .MSG_ERROR "error setting access type" []
    exit EXIT_FAILURE
  -- Set sample format
  if (← devcall (.snd_pcm_hw_params_set_format
        (if bits = 16 then .SND_PCM_FORMAT_S16_LE else .SND_PCM_FORMAT_S8))
        dev.snd_pcm_hw_params_set_format) < 0 then
    message .MSG_ERROR "error setting format" []
    exit EXIT_FAILURE
  -- Set sample rate (nearest possible)
  if (← devcall (.snd_pcm_hw_params_set_rate_near nfreq) dev.snd_pcm_hw_params_set_rate_near) < 0 then
    message .MSG_ERROR "error setting sample rate" []
    exit EXIT_FAILURE
  nfreq := dev.nfreq
  if nfreq ≠ toUInt freq then
    message .MSG_NOTE "%d Hz sample rate not supported by your hardware, using %d Hz instead"
      [.int freq, .nat nfreq]
  -- Set number of channels
  if (← devcall (.snd_pcm_hw_params_set_channels (toUInt channels)) dev.snd_pcm_hw_params_set_channels) < 0 then
    message .MSG_ERROR "error setting channels" []
    exit EXIT_FAILURE
  -- Set number of periods
  if (← devcall (.snd_pcm_hw_params_set_periods 4 0) dev.snd_pcm_hw_params_set_periods) < 0 then
    message .MSG_ERROR "error setting periods" []
    exit EXIT_FAILURE
  -- some additional information
  message .MSG_NOTE "ALSA: sample/frame size %ld (bytes)" [.nat samp_size]
  message .MSG_NOTE "ALSA: buffer size %ld (frames)" [.nat bufsize]
  -- Set the preferred buffer size (in samples)
  if (← devcall (.snd_pcm_hw_params_set_buffer_size bufsize)
        dev.snd_pcm_hw_params_set_buffer_size) < 0 then
    let rc ← devcall .snd_pcm_hw_params_get_buffer_size dev.snd_pcm_hw_params_get_buffer_size
    let nbufsize : Nat := dev.nbufsize
    if rc < 0 then
      message .MSG_ERROR "error setting and getting buffer size (returned %ld)" [.nat nbufsize]
      exit EXIT_FAILURE
    self := self.setbufsize nbufsize
    message .MSG_NOTE "couldn't set buffersize to %ld, using default of %ld instead"
      [.nat bufsize, .nat nbufsize]
  -- Apply HW parameter settings to PCM device and prepare device
  if (← devcall .snd_pcm_hw_params dev.snd_pcm_hw_params) < 0 then
    message .MSG_ERROR "error setting HW params" []
    exit EXIT_FAILURE
  -- dev. info (useful!)
  message .MSG_NOTE "ALSA HW PCM info:" []
  let _ ← devcall .snd_output_stdio_attach dev.snd_output_stdio_attach
  let _ ← devcall .snd_pcm_dump_hw_setup dev.snd_pcm_dump_hw_setup
  let _ ← devcall .snd_pcm_hw_params_free 0
  return self

/-- `ALSAPlayer::~ALSAPlayer()`; `dev` answers the drop and the close. -/
def ALSAPlayer.dtor (_self : ALSAPlayer) (dev : Device) : Proc Unit := do
  -- stop playback immediately
  let _ ← devcall .snd_pcm_drop dev.snd_pcm_drop
  let _ ← devcall .snd_pcm_close dev.snd_pcm_close
  message .MSG_NOTE "ALSA stream dropped & closed" []

/-- A sequence of `output` calls on one sink, each with its byte length and
the device answers it meets. -/
def playback (self : ALSAPlayer) : List (Device × Nat) → Proc Unit
  | [] => pure ()
  | (dev, size) :: rest => do
    self.output dev size
    playback self rest

/-- The life of an opened sink: a sequence of `output` calls, then destruction. -/
def lifetime (self : ALSAPlayer) (writes : List (Device × Nat)) (dev : Device) : Proc Unit := do
  playback self writes
  self.dtor dev

/-- A device that accepts every request: every call reports success, the rate
and buffer size come back as `rate` and `frames`, a write accepts `written`. -/
def Device.accepting (rate frames : Nat) (written : Int) : Device :=
  { snd_pcm_hw_params_malloc := 0, snd_pcm_open := 0, snd_pcm_hw_params_any := 0,
    snd_pcm_hw_params_set_access := 0, snd_pcm_hw_params_set_format := 0,
    snd_pcm_hw_params_set_rate_near := 0, nfreq := rate,
    snd_pcm_hw_params_set_channels := 0, snd_pcm_hw_params_set_periods := 0,
    snd_pcm_hw_params_set_buffer_size := 0, snd_pcm_hw_params_get_buffer_size := 0,
    nbufsize := frames, snd_pcm_hw_params := 0, snd_output_stdio_attach := 0,
    snd_pcm_dump_hw_setup := 0, snd_pcm_writei := written, snd_pcm_prepare := 0,
    snd_pcm_drop := 0, snd_pcm_close := 0 }

/-! ## Reading traces -/

/-- The diagnostic carried by an event, as (level, format, arguments). -/
def Event.diagnostic? : Event → Option (Level × String × List Arg)
  | .message level fmt args => some (level, fmt, args)
  | .call _ _ => none
  | .exit _ => none

/-- The library call carried by an event. -/
def Event.call? : Event → Option Call
  | .call c _ => some c
  | .message _ _ _ => none
  | .exit _ => none

/-- The device name of a call that is a `snd_pcm_open`. -/
def Call.opened? : Call → Option String
  | .snd_pcm_open name => some name
  | .snd_pcm_hw_params_malloc => none
  | .snd_pcm_hw_params_any => none
  | .snd_pcm_hw_params_set_access => none
  | .snd_pcm_hw_params_set_format _ => none
  | .snd_pcm_hw_params_set_rate_near _ => none
  | .snd_pcm_hw_params_set_channels _ => none
  | .snd_pcm_hw_params_set_periods _ _ => none
  | .snd_pcm_hw_params_set_buffer_size _ => none
  | .snd_pcm_hw_params_get_buffer_size => none
  | .snd_pcm_hw_params => none
  | .snd_output_stdio_attach => none
  | .snd_pcm_dump_hw_setup => none
  | .snd_pcm_hw_params_free => none
  | .snd_pcm_writei _ => none
  | .snd_pcm_prepare => none
  | .snd_pcm_drop => none
  | .snd_pcm_close => none

/-- The device name of an event that is a `snd_pcm_open`. -/
def Event.opened? : Event → Option String
  | .call c _ => c.opened?
  | .message _ _ _ => none
  | .exit _ => none

/-- The format of an event that is a diagnostic of the given level. -/
def Event.formatAt? (level : Level) : Event → Option String
  | .message l fmt _ => if l = level then some fmt else none
  | .call _ _ => none
  | .exit _ => none

/-- The diagnostics of a trace, in order. -/
def diagnostics (trace : List Event) : List (Level × String × List Arg) :=
  trace.filterMap Event.diagnostic?

/-- The library calls of a trace, in order. -/
def calls (trace : List Event) : List Call := trace.filterMap Event.call?

/-- The device names passed to `snd_pcm_open` in a trace, in order. -/
def openedDevices (trace : List Event) : List String := trace.filterMap Event.opened?

/-- The formats of the diagnostics of a trace at the given level, in order. -/
def formatsAt (level : Level) (trace : List Event) : List String :=
  trace.filterMap (Event.formatAt? level)

/-! ## Reading `output` -/

/-- The frame size `output` divides by: `getsampsize()` held in an `unsigned int`. -/
def frameSize (self : ALSAPlayer) : Nat := toUInt self.getsampsize

/-- The number of frames of a buffer of `size` bytes, `size / frameSize`. -/
def framesToWrite (self : ALSAPlayer) (size : Nat) : Nat := size / frameSize self

/-- The warning of `output` for a request larger than the buffer. -/
def oversizeWarning (frames : Int) (buf_size : Nat) : Event :=
  .message .MSG_WARN "ALSA trying to push more frames (%ld) than buffer size (%ld)"
    [.int frames, .nat buf_size]

/-- The warning of `output` for a short write. -/
def underrunWarning (frames : Int) (samp_size : Nat) (written : Int) : Event :=
  .message .MSG_WARN "ALSA buffer underrun? to write %ld frames (samp_size %ld) written %ld"
    [.int frames, .nat samp_size, .int written]

/-- The warning of `output` for a failed write. -/
def writeErrorWarning (written : Int) : Event :=
  .message .MSG_WARN "ALSA write error: %s" [.snd_strerror (toInt written)]

/-! ## The constructor, stage by stage -/

/-- The device name the constructor works with: `DEFAULT_DEVICE` for a null
pointer, the given string otherwise. -/
def deviceName : Option String → String
  | none => DEFAULT_DEVICE
  | some name => name

/-- An error-level diagnostic followed by `exit(EXIT_FAILURE)`, after the
events `done`. -/
def failAfter (done : List Event) (fmt : String) (args : List Arg) : Proc ALSAPlayer :=
  ⟨done ++ [.message .MSG_ERROR fmt args, .exit EXIT_FAILURE], .exited EXIT_FAILURE⟩

/-- Events of the constructor up to and including `snd_pcm_open`. -/
def uptoOpen (dev : Device) (name : String) : List Event :=
  [.call .snd_pcm_hw_params_malloc dev.snd_pcm_hw_params_malloc,
   .call (.snd_pcm_open name) dev.snd_pcm_open]

/-- Events up to and including `snd_pcm_hw_params_any`. -/
def uptoAny (dev : Device) (name : String) : List Event :=
  uptoOpen dev name ++ [.call .snd_pcm_hw_params_any dev.snd_pcm_hw_params_any]

/-- Events up to and including `snd_pcm_hw_params_set_access`. -/
def uptoAccess (dev : Device) (name : String) : List Event :=
  uptoAny dev name ++ [.call .snd_pcm_hw_params_set_access dev.snd_pcm_hw_params_set_access]

/-- Events up to and including `snd_pcm_hw_params_set_format`. -/
def uptoFormat (dev : Device) (name : String) (bits : Nat) : List Event :=
  uptoAccess dev name ++
    [.call (.snd_pcm_hw_params_set_format
        (if bits = 16 then .SND_PCM_FORMAT_S16_LE else .SND_PCM_FORMAT_S8))
      dev.snd_pcm_hw_params_set_format]

/-- Events up to and including `snd_pcm_hw_params_set_rate_near`. -/
def uptoRate (dev : Device) (name : String) (bits : Nat) (freq : Int) : List Event :=
  uptoFormat dev name bits ++
    [.call (.snd_pcm_hw_params_set_rate_near (toUInt freq)) dev.snd_pcm_hw_params_set_rate_near]

/-- The note about a substituted sample rate, when there is one. -/
def rateNote (dev : Device) (freq : Int) : List Event :=
  if dev.nfreq = toUInt freq then []
  else [.message .MSG_NOTE
    "%d Hz sample rate not supported by your hardware, using %d Hz instead"
    [.int freq, .nat dev.nfreq]]

/-- Events up to and including `snd_pcm_hw_params_set_channels`. -/
def uptoChannels (dev : Device) (name : String) (bits : Nat) (channels freq : Int) : List Event :=
  uptoRate dev name bits freq ++ rateNote dev freq ++
    [.call (.snd_pcm_hw_params_set_channels (toUInt channels)) dev.snd_pcm_hw_params_set_channels]

/-- Events up to and including `snd_pcm_hw_params_set_periods`. -/
def uptoPeriods (dev : Device) (name : String) (bits : Nat) (channels freq : Int) : List Event :=
  uptoChannels dev name bits channels freq ++
    [.call (.snd_pcm_hw_params_set_periods 4 0) dev.snd_pcm_hw_params_set_periods]

/-- The two informational notes before the buffer size is set. -/
def infoNotes (bits : Nat) (channels freq : Int) (bufsize : Nat) : List Event :=
  [.message .MSG_NOTE "ALSA: sample/frame size %ld (bytes)"
      [.nat (toUInt (ALSAPlayer.mk bits channels freq bufsize).getsampsize)],
   .message .MSG_NOTE "ALSA: buffer size %ld (frames)" [.nat bufsize]]

/-- The note about a substituted buffer size. -/
def bufferNote (bufsize nbufsize : Nat) : Event :=
  .message .MSG_NOTE "couldn't set buffersize to %ld, using default of %ld instead"
    [.nat bufsize, .nat nbufsize]

/-- Events of the buffer-size step: the set call, and after a rejection the
fallback query, followed by the substitution note when the query succeeded. -/
def bufferEvents (dev : Device) (bufsize : Nat) : List Event :=
  .call (.snd_pcm_hw_params_set_buffer_size bufsize) dev.snd_pcm_hw_params_set_buffer_size ::
    (if dev.snd_pcm_hw_params_set_buffer_size < 0 then
      .call .snd_pcm_hw_params_get_buffer_size dev.snd_pcm_hw_params_get_buffer_size ::
        (if dev.snd_pcm_hw_params_get_buffer_size < 0 then [] else [bufferNote bufsize dev.nbufsize])
     else [])

/-- Events up to the end of the buffer-size step. -/
def uptoBuffer (dev : Device) (name : String) (bits : Nat) (channels freq : Int)
    (bufsize : Nat) : List Event :=
  uptoPeriods dev name bits channels freq ++ infoNotes bits channels freq bufsize ++
    bufferEvents dev bufsize

/-- Events up to and including `snd_pcm_hw_params`. -/
def uptoCommit (dev : Device) (name : String) (bits : Nat) (channels freq : Int)
    (bufsize : Nat) : List Event :=
  uptoBuffer dev name bits channels freq bufsize ++
    [.call .snd_pcm_hw_params dev.snd_pcm_hw_params]

/-- Events after a successful commit: the hardware dump and the release of
the parameter block. -/
def dumpEvents (dev : Device) : List Event :=
  [.message .MSG_NOTE "ALSA HW PCM info:" [],
   .call .snd_output_stdio_attach dev.snd_output_stdio_attach,
   .call .snd_pcm_dump_hw_setup dev.snd_pcm_dump_hw_setup,
   .call .snd_pcm_hw_params_free 0]

/-- Events after the commit call: the fatal exit when it failed, the dump
otherwise. -/
def afterCommit (dev : Device) : List Event :=
  if dev.snd_pcm_hw_params < 0 then
    [.message .MSG_ERROR "error setting HW params" [], .exit EXIT_FAILURE]
  else dumpEvents dev

/-! ## The negotiation stages of the specification -/

/-- The nine negotiation stages, in the order of the specification. -/
inductive Stage
  | openDevice
  | queryCapabilities
  | setAccess
  | setFormat
  | setRate
  | setChannels
  | setPeriods
  | setBufferSize
  | commit
  deriving DecidableEq

/-- All stages in negotiation order. -/
def Stage.order : List Stage :=
  [.openDevice, .queryCapabilities, .setAccess, .setFormat, .setRate, .setChannels,
   .setPeriods, .setBufferSize, .commit]

/-- Position of a stage in the negotiation order. -/
def Stage.index : Stage → Nat
  | .openDevice => 0
  | .queryCapabilities => 1
  | .setAccess => 2
  | .setFormat => 3
  | .setRate => 4
  | .setChannels => 5
  | .setPeriods => 6
  | .setBufferSize => 7
  | .commit => 8

/-- Whether a stage fails on a device: its call reports a negative result;
the buffer-size stage fails when the requested size is rejected and the
fallback query fails too. -/
def Stage.fails (dev : Device) : Stage → Bool
  | .openDevice => decide (dev.snd_pcm_open < 0)
  | .queryCapabilities => decide (dev.snd_pcm_hw_params_any < 0)
  | .setAccess => decide (dev.snd_pcm_hw_params_set_access < 0)
  | .setFormat => decide (dev.snd_pcm_hw_params_set_format < 0)
  | .setRate => decide (dev.snd_pcm_hw_params_set_rate_near < 0)
  | .setChannels => decide (dev.snd_pcm_hw_params_set_channels < 0)
  | .setPeriods => decide (dev.snd_pcm_hw_params_set_periods < 0)
  | .setBufferSize => decide (dev.snd_pcm_hw_params_set_buffer_size < 0
      ∧ dev.snd_pcm_hw_params_get_buffer_size < 0)
  | .commit => decide (dev.snd_pcm_hw_params < 0)

/-- The library calls a stage makes when it is attempted. -/
def Stage.calls (dev : Device) (name : String) (bits : Nat) (channels freq : Int)
    (bufsize : Nat) : Stage → List Call
  | .openDevice => [.snd_pcm_open name]
  | .queryCapabilities => [.snd_pcm_hw_params_any]
  | .setAccess => [.snd_pcm_hw_params_set_access]
  | .setFormat => [.snd_pcm_hw_params_set_format
      (if bits = 16 then .SND_PCM_FORMAT_S16_LE else .SND_PCM_FORMAT_S8)]
  | .setRate => [.snd_pcm_hw_params_set_rate_near (toUInt freq)]
  | .setChannels => [.snd_pcm_hw_params_set_channels (toUInt channels)]
  | .setPeriods => [.snd_pcm_hw_params_set_periods 4 0]
  | .setBufferSize =>
      if dev.snd_pcm_hw_params_set_buffer_size < 0 then
        [.snd_pcm_hw_params_set_buffer_size bufsize, .snd_pcm_hw_params_get_buffer_size]
      else [.snd_pcm_hw_params_set_buffer_size bufsize]
  | .commit => [.snd_pcm_hw_params]

/-- The format of the error-level diagnostic that identifies a failed stage. -/
def Stage.errorFormat : Stage → String
  | .openDevice => "error opening PCM device -- %s"
  | .queryCapabilities => "cannot configure this PCM device -- %s"
  | .setAccess => "error setting access type"
  | .setFormat => "error setting format"
  | .setRate => "error setting sample rate"
  | .setChannels => "error setting channels"
  | .setPeriods => "error setting periods"
  | .setBufferSize => "error setting and getting buffer size (returned %ld)"
  | .commit => "error setting HW params"

@[simp] theorem Proc.pure_eq {α : Type} (a : α) : (pure a : Proc α) = ⟨[], .returned a⟩ := rfl

@[simp] theorem Proc.bind_eq {α β : Type} (m : Proc α) (f : α → Proc β) :
    (m >>= f) = Proc.bind m f := rfl

theorem calls_append (xs ys : List Event) : calls (xs ++ ys) = calls xs ++ calls ys :=
  List.filterMap_append xs ys Event.call?

theorem openedDevices_append (xs ys : List Event) :
    openedDevices (xs ++ ys) = openedDevices xs ++ openedDevices ys :=
  List.filterMap_append xs ys Event.opened?

theorem formatsAt_append (level : Level) (xs ys : List Event) :
    formatsAt level (xs ++ ys) = formatsAt level xs ++ formatsAt level ys :=
  List.filterMap_append xs ys (Event.formatAt? level)

theorem toLong_of_lt {n : Nat} (h : n < 2 ^ 63) : toLong n = (n : Int) := by
  unfold toLong
  have h1 : n % 2 ^ 64 = n := Nat.mod_eq_of_lt (by omega)
  rw [h1, if_pos h]

theorem toULong_toLong {n : Nat} (h : n < 2 ^ 64) : toULong (toLong n) = n := by
  unfold toULong toLong
  have h1 : n % 2 ^ 64 = n := Nat.mod_eq_of_lt h
  rw [h1]
  split <;> omega

/-- What `output` does when the frame size is not zero. -/
theorem output_eq (s : ALSAPlayer) (dev : Device) (size : Nat) (hsamp : 0 < frameSize s) :
    s.output dev size =
      ⟨(if s.getbufsize < toULong (toLong (framesToWrite s size)) then
          [oversizeWarning (toLong (framesToWrite s size)) s.getbufsize] else [])
        ++ [.call (.snd_pcm_writei (toULong (toLong (framesToWrite s size)))) dev.snd_pcm_writei]
        ++ (if dev.snd_pcm_writei < 0 then [.call .snd_pcm_prepare dev.snd_pcm_prepare] else [])
        ++ (if dev.snd_pcm_writei = toLong (framesToWrite s size) then []
            else if 0 ≤ dev.snd_pcm_writei then
              [underrunWarning (toLong (framesToWrite s size)) (frameSize s) dev.snd_pcm_writei]
            else [writeErrorWarning dev.snd_pcm_writei]),
       .returned ()⟩ := by
  have h0 : ¬ toUInt s.getsampsize = 0 := by unfold frameSize at hsamp; omega
  simp only [ALSAPlayer.output, framesToWrite, frameSize, oversizeWarning, underrunWarning,
    writeErrorWarning, Proc.bind_eq, Proc.pure_eq, Proc.bind, devcall, message, h0, if_false]
  split_ifs <;> first | rfl | omega

/-! ## `output` -/

/-- With a frame size of zero `output` divides by zero before any call. -/
theorem output_frame_size_zero (s : ALSAPlayer) (dev : Device) (size : Nat)
    (h : frameSize s = 0) : s.output dev size = ⟨[], .undefined⟩ := by
  have h0 : toUInt s.getsampsize = 0 := h
  simp [ALSAPlayer.output, h0, Proc.bind, divisionByZero]

/-- C2: when `size / frameSize` exceeds `getbufsize()`, `output` first emits
the warning-level diagnostic about pushing more frames than the buffer size
and then still issues the device write with exactly `size / frameSize`
frames (no clamping); that write is the only one, and `output` returns. -/
theorem output_oversize_warns_and_still_writes (s : ALSAPlayer) (dev : Device) (size : Nat)
    (hsamp : 0 < frameSize s) (hsize : size < 2 ^ 64)
    (hover : s.getbufsize < framesToWrite s size) :
    (s.output dev size).outcome = .returned () ∧
    (∃ rest, (s.output dev size).trace =
      .message .MSG_WARN "ALSA trying to push more frames (%ld) than buffer size (%ld)"
          [.int (toLong (framesToWrite s size)), .nat s.getbufsize]
        :: .call (.snd_pcm_writei (framesToWrite s size)) dev.snd_pcm_writei :: rest) ∧
    calls (s.output dev size).trace =
      .snd_pcm_writei (framesToWrite s size)
        :: (if dev.snd_pcm_writei < 0 then [.snd_pcm_prepare] else []) := by
  have hu : toULong (toLong (framesToWrite s size)) = framesToWrite s size :=
    toULong_toLong (lt_of_le_of_lt (Nat.div_le_self _ _) hsize)
  rw [output_eq s dev size hsamp, hu]
  refine ⟨rfl, ?_, ?_⟩
  · simp [hover, oversizeWarning]
  · simp only [hover, if_true, calls_append]
    split_ifs <;> simp [calls, Event.call?, oversizeWarning, underrunWarning, writeErrorWarning]

/-- Witness for C2: 16-bit stereo (frame size 4), buffer 4096 frames, 32768
bytes give 8192 frames: the warning, then a write of 8192 frames. -/
theorem output_oversize_warns_and_still_writes_witness :
    (0 < frameSize ⟨16, 2, 44100, 4096⟩ ∧ 32768 < 2 ^ 64 ∧
      (ALSAPlayer.mk 16 2 44100 4096).getbufsize < framesToWrite ⟨16, 2, 44100, 4096⟩ 32768) ∧
    calls ((ALSAPlayer.mk 16 2 44100 4096).output (Device.accepting 44100 4096 4096) 32768).trace =
      [.snd_pcm_writei 8192] :=
  ⟨⟨by decide, by decide, by decide⟩,
   (output_oversize_warns_and_still_writes ⟨16, 2, 44100, 4096⟩ (Device.accepting 44100 4096 4096)
      32768 (by decide) (by decide) (by decide)).2.2⟩

/-- C3: when the device write returns a non-negative count smaller than the
requested `size / frameSize`, `output` emits the warning-level diagnostic
"ALSA buffer underrun?", calls no `snd_pcm_prepare`, issues exactly one
device write (nothing is resubmitted) and returns normally. -/
theorem output_short_write_warns_without_retry (s : ALSAPlayer) (dev : Device) (size : Nat)
    (hsamp : 0 < frameSize s) (hsize : size < 2 ^ 64)
    (hnonneg : 0 ≤ dev.snd_pcm_writei)
    (hshort : dev.snd_pcm_writei < (framesToWrite s size : Int)) :
    (s.output dev size).outcome = .returned () ∧
    (s.output dev size).trace =
      (if s.getbufsize < framesToWrite s size then
          [oversizeWarning (toLong (framesToWrite s size)) s.getbufsize] else [])
        ++ [.call (.snd_pcm_writei (framesToWrite s size)) dev.snd_pcm_writei,
            .message .MSG_WARN
              "ALSA buffer underrun? to write %ld frames (samp_size %ld) written %ld"
              [.int (toLong (framesToWrite s size)), .nat (frameSize s),
               .int dev.snd_pcm_writei]] ∧
    calls (s.output dev size).trace = [.snd_pcm_writei (framesToWrite s size)] := by
  have hf : framesToWrite s size < 2 ^ 64 := lt_of_le_of_lt (Nat.div_le_self _ _) hsize
  have hu : toULong (toLong (framesToWrite s size)) = framesToWrite s size := toULong_toLong hf
  have hne : ¬ dev.snd_pcm_writei = toLong (framesToWrite s size) := by
    unfold toLong
    split <;> omega
  have hneg : ¬ dev.snd_pcm_writei < 0 := by omega
  rw [output_eq s dev size hsamp, hu]
  by_cases hb : s.getbufsize < framesToWrite s size <;>
    simp [hb, hnonneg, hne, hneg, underrunWarning, oversizeWarning, calls, Event.call?]

/-- Witness for C3: 16-bit stereo, buffer 4096 frames, 16384 bytes (4096
frames), the device accepts 1000. -/
theorem output_short_write_warns_without_retry_witness :
    (0 < frameSize ⟨16, 2, 44100, 4096⟩ ∧ 16384 < 2 ^ 64 ∧
      0 ≤ (Device.accepting 44100 4096 1000).snd_pcm_writei ∧
      (Device.accepting 44100 4096 1000).snd_pcm_writei
        < (framesToWrite ⟨16, 2, 44100, 4096⟩ 16384 : Int)) ∧
    ((ALSAPlayer.mk 16 2 44100 4096).output (Device.accepting 44100 4096 1000) 16384).trace =
      [.call (.snd_pcm_writei 4096) 1000,
       .message .MSG_WARN "ALSA buffer underrun? to write %ld frames (samp_size %ld) written %ld"
         [.int 4096, .nat 4, .int 1000]] :=
  ⟨⟨by decide, by decide, by decide, by decide⟩,
   (output_short_write_warns_without_retry ⟨16, 2, 44100, 4096⟩ (Device.accepting 44100 4096 1000)
      16384 (by decide) (by decide) (by decide) (by decide)).2.1⟩

/-- C4: when the byte length is a multiple of the frame size, the frame count
does not exceed `getbufsize()` and the device accepts exactly the requested
number of frames (a `snd_pcm_sframes_t`, so below 2^63), `output` performs the
one device write and nothing else: no diagnostic of any level and no
`snd_pcm_prepare`. -/
theorem output_full_write_is_silent (s : ALSAPlayer) (dev : Device) (size : Nat)
    (hsamp : 0 < frameSize s) (_hmultiple : size % frameSize s = 0)
    (hroom : framesToWrite s size ≤ s.getbufsize)
    (hlong : dev.snd_pcm_writei < 2 ^ 63)
    (hfull : dev.snd_pcm_writei = (framesToWrite s size : Int)) :
    (s.output dev size).outcome = .returned () ∧
    (s.output dev size).trace =
      [.call (.snd_pcm_writei (framesToWrite s size)) dev.snd_pcm_writei] ∧
    diagnostics (s.output dev size).trace = [] ∧
    Call.snd_pcm_prepare ∉ calls (s.output dev size).trace := by
  have hfit : framesToWrite s size < 2 ^ 63 := by omega
  have hl : toLong (framesToWrite s size) = (framesToWrite s size : Int) := toLong_of_lt hfit
  have hu : toULong (toLong (framesToWrite s size)) = framesToWrite s size :=
    toULong_toLong (by omega)
  have hb : ¬ s.getbufsize < framesToWrite s size := by omega
  have hneg : ¬ dev.snd_pcm_writei < 0 := by omega
  rw [output_eq s dev size hsamp, hu, hl]
  simp [hb, hneg, hfull, calls, diagnostics, Event.call?, Event.diagnostic?]

/-- Witness for C4: 16-bit stereo, buffer 4096 frames, 16384 bytes (4096
frames), the device returns 4096. -/
theorem output_full_write_is_silent_witness :
    (0 < frameSize ⟨16, 2, 44100, 4096⟩ ∧ 16384 % frameSize ⟨16, 2, 44100, 4096⟩ = 0 ∧
      framesToWrite ⟨16, 2, 44100, 4096⟩ 16384 ≤ (ALSAPlayer.mk 16 2 44100 4096).getbufsize ∧
      (Device.accepting 44100 4096 4096).snd_pcm_writei < 2 ^ 63 ∧
      (Device.accepting 44100 4096 4096).snd_pcm_writei
        = (framesToWrite ⟨16, 2, 44100, 4096⟩ 16384 : Int)) ∧
    ((ALSAPlayer.mk 16 2 44100 4096).output (Device.accepting 44100 4096 4096) 16384).trace =
      [.call (.snd_pcm_writei 4096) 4096] ∧
    diagnostics ((ALSAPlayer.mk 16 2 44100 4096).output
      (Device.accepting 44100 4096 4096) 16384).trace = [] :=
  ⟨⟨by decide, by decide, by decide, by decide, by decide⟩,
   (output_full_write_is_silent ⟨16, 2, 44100, 4096⟩ (Device.accepting 44100 4096 4096)
      16384 (by decide) (by decide) (by decide) (by decide) (by decide)).2.1,
   (output_full_write_is_silent ⟨16, 2, 44100, 4096⟩ (Device.accepting 44100 4096 4096)
      16384 (by decide) (by decide) (by decide) (by decide) (by decide)).2.2.1⟩

/-! ## Calls and error diagnostics of each part of the constructor -/

theorem formatsAt_error_rateNote (dev : Device) (freq : Int) :
    formatsAt .MSG_ERROR (rateNote dev freq) = [] := by
  unfold rateNote; split <;> rfl

theorem calls_rateNote (dev : Device) (freq : Int) : calls (rateNote dev freq) = [] := by
  unfold rateNote; split <;> rfl

theorem formatsAt_error_bufferEvents (dev : Device) (bufsize : Nat) :
    formatsAt .MSG_ERROR (bufferEvents dev bufsize) = [] := by
  unfold bufferEvents; split_ifs <;> rfl

theorem calls_bufferEvents (dev : Device) (bufsize : Nat) :
    calls (bufferEvents dev bufsize) =
      if dev.snd_pcm_hw_params_set_buffer_size < 0 then
        [.snd_pcm_hw_params_set_buffer_size bufsize, .snd_pcm_hw_params_get_buffer_size]
      else [.snd_pcm_hw_params_set_buffer_size bufsize] := by
  unfold bufferEvents; split_ifs <;> rfl

theorem formatsAt_error_uptoPeriods (dev : Device) (name : String) (bits : Nat)
    (channels freq : Int) :
    formatsAt .MSG_ERROR (uptoPeriods dev name bits channels freq) = [] := by
  simp only [uptoPeriods, uptoChannels, uptoRate, uptoFormat, uptoAccess, uptoAny, uptoOpen,
    formatsAt_append, formatsAt_error_rateNote]
  rfl

theorem formatsAt_error_uptoChannels (dev : Device) (name : String) (bits : Nat)
    (channels freq : Int) :
    formatsAt .MSG_ERROR (uptoChannels dev name bits channels freq) = [] := by
  simp only [uptoChannels, uptoRate, uptoFormat, uptoAccess, uptoAny, uptoOpen,
    formatsAt_append, formatsAt_error_rateNote]
  rfl

theorem formatsAt_error_uptoBuffer (dev : Device) (name : String) (bits : Nat)
    (channels freq : Int) (bufsize : Nat) :
    formatsAt .MSG_ERROR (uptoBuffer dev name bits channels freq bufsize) = [] := by
  simp only [uptoBuffer, formatsAt_append, formatsAt_error_uptoPeriods,
    formatsAt_error_bufferEvents]
  rfl

theorem formatsAt_error_uptoCommit (dev : Device) (name : String) (bits : Nat)
    (channels freq : Int) (bufsize : Nat) :
    formatsAt .MSG_ERROR (uptoCommit dev name bits channels freq bufsize) = [] := by
  simp only [uptoCommit, uptoBuffer, formatsAt_append, formatsAt_error_uptoPeriods,
    formatsAt_error_bufferEvents]
  rfl

theorem calls_uptoRate (dev : Device) (name : String) (bits : Nat) (freq : Int) :
    calls (uptoRate dev name bits freq) =
      [.snd_pcm_hw_params_malloc, .snd_pcm_open name, .snd_pcm_hw_params_any,
       .snd_pcm_hw_params_set_access,
       .snd_pcm_hw_params_set_format
         (if bits = 16 then .SND_PCM_FORMAT_S16_LE else .SND_PCM_FORMAT_S8),
       .snd_pcm_hw_params_set_rate_near (toUInt freq)] := rfl

theorem calls_uptoPeriods (dev : Device) (name : String) (bits : Nat) (channels freq : Int) :
    calls (uptoPeriods dev name bits channels freq) =
      [.snd_pcm_hw_params_malloc, .snd_pcm_open name, .snd_pcm_hw_params_any,
       .snd_pcm_hw_params_set_access,
       .snd_pcm_hw_params_set_format
         (if bits = 16 then .SND_PCM_FORMAT_S16_LE else .SND_PCM_FORMAT_S8),
       .snd_pcm_hw_params_set_rate_near (toUInt freq),
       .snd_pcm_hw_params_set_channels (toUInt channels), .snd_pcm_hw_params_set_periods 4 0] := by
  simp only [uptoPeriods, uptoChannels, calls_append, calls_uptoRate, calls_rateNote]
  rfl

theorem calls_uptoChannels (dev : Device) (name : String) (bits : Nat) (channels freq : Int) :
    calls (uptoChannels dev name bits channels freq) =
      [.snd_pcm_hw_params_malloc, .snd_pcm_open name, .snd_pcm_hw_params_any,
       .snd_pcm_hw_params_set_access,
       .snd_pcm_hw_params_set_format
         (if bits = 16 then .SND_PCM_FORMAT_S16_LE else .SND_PCM_FORMAT_S8),
       .snd_pcm_hw_params_set_rate_near (toUInt freq),
       .snd_pcm_hw_params_set_channels (toUInt channels)] := by
  simp only [uptoChannels, calls_append, calls_uptoRate, calls_rateNote]
  rfl

theorem calls_uptoBuffer (dev : Device) (name : String) (bits : Nat) (channels freq : Int)
    (bufsize : Nat) :
    calls (uptoBuffer dev name bits channels freq bufsize) =
      calls (uptoPeriods dev name bits channels freq) ++
        (if dev.snd_pcm_hw_params_set_buffer_size < 0 then
          [.snd_pcm_hw_params_set_buffer_size bufsize, .snd_pcm_hw_params_get_buffer_size]
        else [.snd_pcm_hw_params_set_buffer_size bufsize]) := by
  have hi : calls (infoNotes bits channels freq bufsize) = [] := rfl
  simp only [uptoBuffer, calls_append, calls_bufferEvents, hi, List.append_nil]

theorem calls_uptoCommit (dev : Device) (name : String) (bits : Nat) (channels freq : Int)
    (bufsize : Nat) :
    calls (uptoCommit dev name bits channels freq bufsize) =
      calls (uptoBuffer dev name bits channels freq bufsize) ++ [.snd_pcm_hw_params] := by
  simp only [uptoCommit, calls_append]
  rfl

theorem calls_failAfter (done : List Event) (fmt : String) (args : List Arg) :
    calls (failAfter done fmt args).trace = calls done := by
  simp only [failAfter, calls_append]
  exact List.append_nil _

theorem formatsAt_error_failAfter (done : List Event) (fmt : String) (args : List Arg) :
    formatsAt .MSG_ERROR (failAfter done fmt args).trace = formatsAt .MSG_ERROR done ++ [fmt] := by
  simp only [failAfter, formatsAt_append]
  rfl

theorem getLast?_failAfter (done : List Event) (fmt : String) (args : List Arg) :
    (failAfter done fmt args).trace.getLast? = some (.exit EXIT_FAILURE) := by
  simp [failAfter]

theorem errorFormat_injective : Function.Injective Stage.errorFormat := by
  intro a b h
  cases a <;> cases b <;> first | rfl | (exact absurd h (by decide))

/-! ## The constructor -/

set_option maxHeartbeats 2000000 in
/-- The constructor as a cascade over the results the device reports. -/
theorem ctor_eq (dev : Device) (device : Option String) (bits : Nat) (channels freq : Int)
    (bufsize : Nat) :
    ALSAPlayer.ctor dev device bits channels freq bufsize =
      if dev.snd_pcm_open < 0 then
        failAfter (uptoOpen dev (deviceName device))
          "error opening PCM device -- %s" [.str (deviceName device)]
      else if dev.snd_pcm_hw_params_any < 0 then
        failAfter (uptoAny dev (deviceName device))
          "cannot configure this PCM device -- %s" [.str (deviceName device)]
      else if dev.snd_pcm_hw_params_set_access < 0 then
        failAfter (uptoAccess dev (deviceName device)) "error setting access type" []
      else if dev.snd_pcm_hw_params_set_format < 0 then
        failAfter (uptoFormat dev (deviceName device) bits) "error setting format" []
      else if dev.snd_pcm_hw_params_set_rate_near < 0 then
        failAfter (uptoRate dev (deviceName device) bits freq) "error setting sample rate" []
      else if dev.snd_pcm_hw_params_set_channels < 0 then
        failAfter (uptoChannels dev (deviceName device) bits channels freq)
          "error setting channels" []
      else if dev.snd_pcm_hw_params_set_periods < 0 then
        failAfter (uptoPeriods dev (deviceName device) bits channels freq)
          "error setting periods" []
      else if dev.snd_pcm_hw_params_set_buffer_size < 0
          ∧ dev.snd_pcm_hw_params_get_buffer_size < 0 then
        failAfter (uptoBuffer dev (deviceName device) bits channels freq bufsize)
          "error setting and getting buffer size (returned %ld)" [.nat dev.nbufsize]
      else if dev.snd_pcm_hw_params < 0 then
        failAfter (uptoCommit dev (deviceName device) bits channels freq bufsize)
          "error setting HW params" []
      else
        ⟨uptoCommit dev (deviceName device) bits channels freq bufsize ++ dumpEvents dev,
         .returned
          { bits := bits, channels := channels, freq := freq,
            buf_size := if dev.snd_pcm_hw_params_set_buffer_size < 0 then dev.nbufsize
              else bufsize }⟩ := by
  have hname : (match device with
      | none => DEFAULT_DEVICE
      | some name => name) = deviceName device := by cases device <;> rfl
  simp only [ALSAPlayer.ctor, Proc.bind_eq, Proc.pure_eq, hname]
  by_cases h1 : dev.snd_pcm_open < 0
  · simp [h1, Proc.bind, devcall, message, exit, failAfter, uptoOpen]
  by_cases h2 : dev.snd_pcm_hw_params_any < 0
  · simp [h1, h2, Proc.bind, devcall, message, exit, failAfter, uptoOpen, uptoAny]
  by_cases h3 : dev.snd_pcm_hw_params_set_access < 0
  · simp [h1, h2, h3, Proc.bind, devcall, message, exit, failAfter, uptoOpen, uptoAny, uptoAccess]
  by_cases h4 : dev.snd_pcm_hw_params_set_format < 0
  · simp [h1, h2, h3, h4, Proc.bind, devcall, message, exit, failAfter, uptoOpen, uptoAny,
      uptoAccess, uptoFormat]
  by_cases h5 : dev.snd_pcm_hw_params_set_rate_near < 0
  · simp [h1, h2, h3, h4, h5, Proc.bind, devcall, message, exit, failAfter, uptoOpen, uptoAny,
      uptoAccess, uptoFormat, uptoRate]
  by_cases hn : dev.nfreq = toUInt freq <;>
  by_cases h6 : dev.snd_pcm_hw_params_set_channels < 0 <;>
  by_cases h7 : dev.snd_pcm_hw_params_set_periods < 0 <;>
  by_cases h8 : dev.snd_pcm_hw_params_set_buffer_size < 0 <;>
  by_cases h9 : dev.snd_pcm_hw_params_get_buffer_size < 0 <;>
  by_cases h10 : dev.snd_pcm_hw_params < 0 <;>
  simp [h1, h2, h3, h4, h5, hn, h6, h7, h8, h9, h10, Proc.bind, devcall, message, exit,
    failAfter, uptoOpen, uptoAny, uptoAccess, uptoFormat, uptoRate, uptoChannels, uptoPeriods,
    uptoBuffer, uptoCommit, bufferEvents, bufferNote, infoNotes, dumpEvents, rateNote,
    ALSAPlayer.setbufsize]

/-- Case analysis on how a construction ends: the nine fatal exits, each
reached after the earlier calls succeeded, and the successful return. -/
theorem ctor_cases (dev : Device) (device : Option String) (bits : Nat) (channels freq : Int)
    (bufsize : Nat) (P : Proc ALSAPlayer → Prop)
    (hopen : dev.snd_pcm_open < 0 →
      P (failAfter (uptoOpen dev (deviceName device))
        "error opening PCM device -- %s" [.str (deviceName device)]))
    (hany : ¬ dev.snd_pcm_open < 0 → dev.snd_pcm_hw_params_any < 0 →
      P (failAfter (uptoAny dev (deviceName device))
        "cannot configure this PCM device -- %s" [.str (deviceName device)]))
    (haccess : ¬ dev.snd_pcm_open < 0 → ¬ dev.snd_pcm_hw_params_any < 0 →
      dev.snd_pcm_hw_params_set_access < 0 →
      P (failAfter (uptoAccess dev (deviceName device)) "error setting access type" []))
    (hformat : ¬ dev.snd_pcm_open < 0 → ¬ dev.snd_pcm_hw_params_any < 0 →
      ¬ dev.snd_pcm_hw_params_set_access < 0 → dev.snd_pcm_hw_params_set_format < 0 →
      P (failAfter (uptoFormat dev (deviceName device) bits) "error setting format" []))
    (hrate : ¬ dev.snd_pcm_open < 0 → ¬ dev.snd_pcm_hw_params_any < 0 →
      ¬ dev.snd_pcm_hw_params_set_access < 0 → ¬ dev.snd_pcm_hw_params_set_format < 0 →
      dev.snd_pcm_hw_params_set_rate_near < 0 →
      P (failAfter (uptoRate dev (deviceName device) bits freq) "error setting sample rate" []))
    (hchannels : ¬ dev.snd_pcm_open < 0 → ¬ dev.snd_pcm_hw_params_any < 0 →
      ¬ dev.snd_pcm_hw_params_set_access < 0 → ¬ dev.snd_pcm_hw_params_set_format < 0 →
      ¬ dev.snd_pcm_hw_params_set_rate_near < 0 → dev.snd_pcm_hw_params_set_channels < 0 →
      P (failAfter (uptoChannels dev (deviceName device) bits channels freq)
        "error setting channels" []))
    (hperiods : ¬ dev.snd_pcm_open < 0 → ¬ dev.snd_pcm_hw_params_any < 0 →
      ¬ dev.snd_pcm_hw_params_set_access < 0 → ¬ dev.snd_pcm_hw_params_set_format < 0 →
      ¬ dev.snd_pcm_hw_params_set_rate_near < 0 → ¬ dev.snd_pcm_hw_params_set_channels < 0 →
      dev.snd_pcm_hw_params_set_periods < 0 →
      P (failAfter (uptoPeriods dev (deviceName device) bits channels freq)
        "error setting periods" []))
    (hbuffer : ¬ dev.snd_pcm_open < 0 → ¬ dev.snd_pcm_hw_params_any < 0 →
      ¬ dev.snd_pcm_hw_params_set_access < 0 → ¬ dev.snd_pcm_hw_params_set_format < 0 →
      ¬ dev.snd_pcm_hw_params_set_rate_near < 0 → ¬ dev.snd_pcm_hw_params_set_channels < 0 →
      ¬ dev.snd_pcm_hw_params_set_periods < 0 →
      dev.snd_pcm_hw_params_set_buffer_size < 0 →
      dev.snd_pcm_hw_params_get_buffer_size < 0 →
      P (failAfter (uptoBuffer dev (deviceName device) bits channels freq bufsize)
        "error setting and getting buffer size (returned %ld)" [.nat dev.nbufsize]))
    (hcommit : ¬ dev.snd_pcm_open < 0 → ¬ dev.snd_pcm_hw_params_any < 0 →
      ¬ dev.snd_pcm_hw_params_set_access < 0 → ¬ dev.snd_pcm_hw_params_set_format < 0 →
      ¬ dev.snd_pcm_hw_params_set_rate_near < 0 → ¬ dev.snd_pcm_hw_params_set_channels < 0 →
      ¬ dev.snd_pcm_hw_params_set_periods < 0 →
      ¬ (dev.snd_pcm_hw_params_set_buffer_size < 0
        ∧ dev.snd_pcm_hw_params_get_buffer_size < 0) →
      dev.snd_pcm_hw_params < 0 →
      P (failAfter (uptoCommit dev (deviceName device) bits channels freq bufsize)
        "error setting HW params" []))
    (hdone : ¬ dev.snd_pcm_open < 0 → ¬ dev.snd_pcm_hw_params_any < 0 →
      ¬ dev.snd_pcm_hw_params_set_access < 0 → ¬ dev.snd_pcm_hw_params_set_format < 0 →
      ¬ dev.snd_pcm_hw_params_set_rate_near < 0 → ¬ dev.snd_pcm_hw_params_set_channels < 0 →
      ¬ dev.snd_pcm_hw_params_set_periods < 0 →
      ¬ (dev.snd_pcm_hw_params_set_buffer_size < 0
        ∧ dev.snd_pcm_hw_params_get_buffer_size < 0) →
      ¬ dev.snd_pcm_hw_params < 0 →
      P ⟨uptoCommit dev (deviceName device) bits channels freq bufsize ++ dumpEvents dev,
         .returned
          { bits := bits, channels := channels, freq := freq,
            buf_size := if dev.snd_pcm_hw_params_set_buffer_size < 0 then dev.nbufsize
              else bufsize }⟩) :
    P (ALSAPlayer.ctor dev device bits channels freq bufsize) := by
  rw [ctor_eq]
  by_cases h1 : dev.snd_pcm_open < 0
  · rw [if_pos h1]; exact hopen h1
  rw [if_neg h1]
  by_cases h2 : dev.snd_pcm_hw_params_any < 0
  · rw [if_pos h2]; exact hany h1 h2
  rw [if_neg h2]
  by_cases h3 : dev.snd_pcm_hw_params_set_access < 0
  · rw [if_pos h3]; exact haccess h1 h2 h3
  rw [if_neg h3]
  by_cases h4 : dev.snd_pcm_hw_params_set_format < 0
  · rw [if_pos h4]; exact hformat h1 h2 h3 h4
  rw [if_neg h4]
  by_cases h5 : dev.snd_pcm_hw_params_set_rate_near < 0
  · rw [if_pos h5]; exact hrate h1 h2 h3 h4 h5
  rw [if_neg h5]
  by_cases h6 : dev.snd_pcm_hw_params_set_channels < 0
  · rw [if_pos h6]; exact hchannels h1 h2 h3 h4 h5 h6
  rw [if_neg h6]
  by_cases h7 : dev.snd_pcm_hw_params_set_periods < 0
  · rw [if_pos h7]; exact hperiods h1 h2 h3 h4 h5 h6 h7
  rw [if_neg h7]
  by_cases h8 : dev.snd_pcm_hw_params_set_buffer_size < 0
      ∧ dev.snd_pcm_hw_params_get_buffer_size < 0
  · rw [if_pos h8]; exact hbuffer h1 h2 h3 h4 h5 h6 h7 h8.1 h8.2
  rw [if_neg h8]
  by_cases h9 : dev.snd_pcm_hw_params < 0
  · rw [if_pos h9]; exact hcommit h1 h2 h3 h4 h5 h6 h7 h8 h9
  rw [if_neg h9]
  exact hdone h1 h2 h3 h4 h5 h6 h7 h8 h9

theorem openedDevices_uptoOpen (dev : Device) (name : String) :
    openedDevices (uptoOpen dev name) = [name] := rfl

/-- The only `snd_pcm_open` of a construction names `deviceName device`. -/
theorem openedDevices_ctor (dev : Device) (device : Option String) (bits : Nat)
    (channels freq : Int) (bufsize : Nat) :
    openedDevices (ALSAPlayer.ctor dev device bits channels freq bufsize).trace
      = [deviceName device] := by
  have hr : openedDevices (rateNote dev freq) = [] := by
    unfold rateNote; split <;> rfl
  have hb : openedDevices (bufferEvents dev bufsize) = [] := by
    unfold bufferEvents; split_ifs <;> rfl
  apply ctor_cases dev device bits channels freq bufsize
    (fun r => openedDevices r.trace = [deviceName device]) <;> intros <;>
    simp only [failAfter, uptoCommit, uptoBuffer, uptoPeriods, uptoChannels, uptoRate,
      uptoFormat, uptoAccess, uptoAny, openedDevices_append, openedDevices_uptoOpen, hr, hb] <;>
    rfl

/-- C8 (as stated, refuted): constructed with the empty string as device
identifier, the sink opens the device named by the empty string, not
"default". -/
theorem ctor_empty_device_name_not_defaulted :
    openedDevices (ALSAPlayer.ctor (Device.accepting 44100 4096 0) (some "") 16 2 44100 4096).trace
      = [""] ∧
    openedDevices (ALSAPlayer.ctor (Device.accepting 44100 4096 0) (some "") 16 2 44100 4096).trace
      ≠ ["default"] := by
  constructor <;> decide

/-- C8 (amended): an absent (null) device identifier opens "default"; every
given identifier, the empty string included, is opened unchanged. In both
cases this is the only device opened. -/
theorem ctor_opens_default_only_for_null (dev : Device) (bits : Nat) (channels freq : Int)
    (bufsize : Nat) :
    openedDevices (ALSAPlayer.ctor dev none bits channels freq bufsize).trace = ["default"] ∧
    ∀ name : String,
      openedDevices (ALSAPlayer.ctor dev (some name) bits channels freq bufsize).trace = [name] :=
  ⟨openedDevices_ctor dev none bits channels freq bufsize,
   fun name => openedDevices_ctor dev (some name) bits channels freq bufsize⟩

/-- C7 (the code at the failing input): requested 44100 Hz, the device
substitutes 48000 Hz and accepts everything else. Construction succeeds, the
note "using 48000 Hz instead" is emitted, and the rate kept in the sink is
still the requested 44100, not 48000. -/
theorem ctor_keeps_requested_rate_after_substitution :
    (ALSAPlayer.ctor (Device.accepting 48000 4096 0) none 16 2 44100 4096).outcome
      = .returned { bits := 16, channels := 2, freq := 44100, buf_size := 4096 } ∧
    Event.message .MSG_NOTE
        "%d Hz sample rate not supported by your hardware, using %d Hz instead"
        [.int 44100, .nat 48000]
      ∈ (ALSAPlayer.ctor (Device.accepting 48000 4096 0) none 16 2 44100 4096).trace := by
  constructor <;> decide

/-- Whatever the device answers, a sink that the constructor returns holds the
rate it was asked for: the constructor never stores `nfreq`. -/
theorem ctor_returns_requested_freq (dev : Device) (device : Option String) (bits : Nat)
    (channels freq : Int) (bufsize : Nat) (s : ALSAPlayer)
    (h : (ALSAPlayer.ctor dev device bits channels freq bufsize).outcome = .returned s) :
    s.freq = freq := by
  revert h
  apply ctor_cases dev device bits channels freq bufsize
    (fun r => r.outcome = .returned s → s.freq = freq)
  case hdone =>
    intro _ _ _ _ _ _ _ _ _ h
    cases h
    rfl
  all_goals
    intros
    rename_i h
    exact absurd h (by simp [failAfter])

/-! ## The destructor and the life of a sink -/

/-- The calls of one `output`: the write, and the prepare after a failed write. -/
theorem calls_output_eq (s : ALSAPlayer) (dev : Device) (size : Nat) (hsamp : 0 < frameSize s) :
    calls (s.output dev size).trace =
      .snd_pcm_writei (toULong (toLong (framesToWrite s size)))
        :: (if dev.snd_pcm_writei < 0 then [.snd_pcm_prepare] else []) := by
  rw [output_eq s dev size hsamp]
  simp only [calls_append]
  split_ifs <;> simp [calls, Event.call?, oversizeWarning, underrunWarning, writeErrorWarning]

/-- One `output` call neither drops nor closes. -/
theorem calls_output (s : ALSAPlayer) (dev : Device) (size : Nat) :
    ∀ c ∈ calls (s.output dev size).trace, c ≠ .snd_pcm_close ∧ c ≠ .snd_pcm_drop := by
  by_cases hsamp : 0 < frameSize s
  · rw [calls_output_eq s dev size hsamp]
    intro c hc
    have hc2 : c = .snd_pcm_writei (toULong (toLong (framesToWrite s size)))
        ∨ c = .snd_pcm_prepare := by
      split_ifs at hc <;> simp_all
    rcases hc2 with rfl | rfl <;> simp
  · have h0 : toUInt s.getsampsize = 0 := by unfold frameSize at hsamp; omega
    simp [ALSAPlayer.output, h0, Proc.bind, divisionByZero, calls]

/-- A sequence of `output` calls neither drops nor closes. -/
theorem calls_playback (s : ALSAPlayer) (writes : List (Device × Nat)) :
    ∀ c ∈ calls (playback s writes).trace, c ≠ .snd_pcm_close ∧ c ≠ .snd_pcm_drop := by
  induction writes with
  | nil => simp [playback, calls]
  | cons w rest ih =>
    obtain ⟨dev, size⟩ := w
    intro c hc
    simp only [playback, Proc.bind_eq, Proc.bind] at hc
    split at hc
    · simp only [calls_append, List.mem_append] at hc
      rcases hc with hc | hc
      · exact calls_output s dev size c hc
      · exact ih c hc
    · exact calls_output s dev size c hc
    · exact calls_output s dev size c hc

/-- With a frame size that is not zero every `output` call returns. -/
theorem playback_returns (s : ALSAPlayer) (writes : List (Device × Nat))
    (hsamp : 0 < frameSize s) : (playback s writes).outcome = .returned () := by
  induction writes with
  | nil => rfl
  | cons w rest ih =>
    obtain ⟨dev, size⟩ := w
    simp only [playback, Proc.bind_eq, Proc.bind, output_eq s dev size hsamp]
    exact ih

/-- C10: whatever `output` calls came before and whatever the drop and the
close report, the destructor performs exactly `snd_pcm_drop`, then
`snd_pcm_close`, then emits the note "ALSA stream dropped & closed", and
returns (no `exit`). No `output` call drops or closes, so over the life of a
sink (frame size not zero, so that every `output` returns) the handle is
released exactly once, by the destructor. -/
theorem dtor_drops_then_closes_exactly_once (s : ALSAPlayer) (writes : List (Device × Nat))
    (dev : Device) :
    (s.dtor dev).outcome = .returned () ∧
    (s.dtor dev).trace =
      [.call .snd_pcm_drop dev.snd_pcm_drop, .call .snd_pcm_close dev.snd_pcm_close,
       .message .MSG_NOTE "ALSA stream dropped & closed" []] ∧
    (∀ c ∈ calls (playback s writes).trace, c ≠ .snd_pcm_close ∧ c ≠ .snd_pcm_drop) ∧
    (0 < frameSize s →
      (lifetime s writes dev).outcome = .returned () ∧
      (lifetime s writes dev).trace = (playback s writes).trace ++ (s.dtor dev).trace ∧
      (calls (lifetime s writes dev).trace).count .snd_pcm_drop = 1 ∧
      (calls (lifetime s writes dev).trace).count .snd_pcm_close = 1) := by
  refine ⟨rfl, rfl, calls_playback s writes, fun hsamp => ?_⟩
  have hret := playback_returns s writes hsamp
  have hlife : lifetime s writes dev
      = ⟨(playback s writes).trace ++ (s.dtor dev).trace, .returned ()⟩ := by
    simp only [lifetime, Proc.bind_eq, Proc.bind, hret]
    rfl
  have hdrop : (calls (playback s writes).trace).count .snd_pcm_drop = 0 :=
    List.count_eq_zero_of_not_mem fun h => (calls_playback s writes _ h).2 rfl
  have hclose : (calls (playback s writes).trace).count .snd_pcm_close = 0 :=
    List.count_eq_zero_of_not_mem fun h => (calls_playback s writes _ h).1 rfl
  have hd : calls (s.dtor dev).trace = [.snd_pcm_drop, .snd_pcm_close] := rfl
  rw [hlife]
  refine ⟨rfl, rfl, ?_, ?_⟩
  · simp only [calls_append, List.count_append, hdrop, hd]
    decide
  · simp only [calls_append, List.count_append, hclose, hd]
    decide

/-- Witness for C10: a 16-bit stereo sink that saw a full write, a failed
write and a short write; at destruction both the drop and the close fail. -/
theorem dtor_drops_then_closes_exactly_once_witness :
    0 < frameSize ⟨16, 2, 44100, 4096⟩ ∧
    (lifetime ⟨16, 2, 44100, 4096⟩
      [(Device.accepting 44100 4096 4096, 16384), (Device.accepting 44100 4096 (-32), 16384),
       (Device.accepting 44100 4096 1000, 16384)]
      { Device.accepting 44100 4096 0 with snd_pcm_drop := -19, snd_pcm_close := -19 }).outcome
      = .returned () ∧
    (calls (lifetime ⟨16, 2, 44100, 4096⟩
      [(Device.accepting 44100 4096 4096, 16384), (Device.accepting 44100 4096 (-32), 16384),
       (Device.accepting 44100 4096 1000, 16384)]
      { Device.accepting 44100 4096 0 with snd_pcm_drop := -19, snd_pcm_close := -19 }).trace).count
        .snd_pcm_close = 1 :=
  ⟨by decide,
   ((dtor_drops_then_closes_exactly_once ⟨16, 2, 44100, 4096⟩
      [(Device.accepting 44100 4096 4096, 16384), (Device.accepting 44100 4096 (-32), 16384),
       (Device.accepting 44100 4096 1000, 16384)]
      { Device.accepting 44100 4096 0 with snd_pcm_drop := -19, snd_pcm_close := -19 }).2.2.2
      (by decide)).1,
   ((dtor_drops_then_closes_exactly_once ⟨16, 2, 44100, 4096⟩
      [(Device.accepting 44100 4096 4096, 16384), (Device.accepting 44100 4096 (-32), 16384),
       (Device.accepting 44100 4096 1000, 16384)]
      { Device.accepting 44100 4096 0 with snd_pcm_drop := -19, snd_pcm_close := -19 }).2.2.2
      (by decide)).2.2.2⟩

/-- C6: the constructor goes through the stages open device, query
capability space, set access, set format, set rate, set channels, set
periods (4), set buffer size, commit, in this order. If `k` is the first
stage that fails (the buffer-size stage fails when both the set and the
fallback query fail), exactly one error-level diagnostic is emitted and it is
the one of stage `k`, the process exits with `EXIT_FAILURE` as its last
event, and the library calls made are the allocation followed by the calls of
the stages up to `k` in order, nothing of a later stage. The error
diagnostics of different stages differ. If no stage fails the constructor
returns a sink after the calls of all nine stages in order, without any
error-level diagnostic; and it returns only if no stage fails. -/
theorem ctor_stops_at_first_failing_stage (dev : Device) (device : Option String) (bits : Nat)
    (channels freq : Int) (bufsize : Nat) :
    (∀ k : Stage, (∀ j : Stage, j.index < k.index → j.fails dev = false) → k.fails dev = true →
      (ALSAPlayer.ctor dev device bits channels freq bufsize).outcome = .exited EXIT_FAILURE ∧
      formatsAt .MSG_ERROR (ALSAPlayer.ctor dev device bits channels freq bufsize).trace
        = [k.errorFormat] ∧
      calls (ALSAPlayer.ctor dev device bits channels freq bufsize).trace
        = .snd_pcm_hw_params_malloc ::
            (Stage.order.take (k.index + 1)).flatMap
              (Stage.calls dev (deviceName device) bits channels freq bufsize) ∧
      (ALSAPlayer.ctor dev device bits channels freq bufsize).trace.getLast?
        = some (.exit EXIT_FAILURE)) ∧
    ((∀ j : Stage, j.fails dev = false) →
      (∃ s, (ALSAPlayer.ctor dev device bits channels freq bufsize).outcome = .returned s) ∧
      formatsAt .MSG_ERROR (ALSAPlayer.ctor dev device bits channels freq bufsize).trace = [] ∧
      calls (ALSAPlayer.ctor dev device bits channels freq bufsize).trace
        = .snd_pcm_hw_params_malloc ::
            Stage.order.flatMap (Stage.calls dev (deviceName device) bits channels freq bufsize)
            ++ [.snd_output_stdio_attach, .snd_pcm_dump_hw_setup, .snd_pcm_hw_params_free]) ∧
    ((∃ s, (ALSAPlayer.ctor dev device bits channels freq bufsize).outcome = .returned s) →
      ∀ j : Stage, j.fails dev = false) ∧
    Function.Injective Stage.errorFormat := by
  refine ⟨?_, ?_, ?_, errorFormat_injective⟩
  · intro k hfirst hfail
    have g1 := hfirst .openDevice
    have g2 := hfirst .queryCapabilities
    have g3 := hfirst .setAccess
    have g4 := hfirst .setFormat
    have g5 := hfirst .setRate
    have g6 := hfirst .setChannels
    have g7 := hfirst .setPeriods
    have g8 := hfirst .setBufferSize
    clear hfirst
    rw [ctor_eq]
    cases k <;>
      simp only [Stage.index, Stage.fails, decide_eq_true_eq, decide_eq_false_iff_not,
        Nat.lt_irrefl, Nat.not_lt_zero, false_implies, Nat.reduceLT, true_implies]
        at hfail g1 g2 g3 g4 g5 g6 g7 g8
    all_goals simp only [*, if_false, if_true, and_self, and_true, true_and]
    all_goals refine ⟨rfl, ?_, ?_, getLast?_failAfter _ _ _⟩
    all_goals
      simp only [formatsAt_error_failAfter, calls_failAfter, formatsAt_error_uptoPeriods,
        formatsAt_error_uptoCommit, formatsAt_error_uptoChannels, formatsAt_error_uptoBuffer,
        calls_uptoPeriods, calls_uptoChannels, calls_uptoBuffer, calls_uptoCommit]
    all_goals first
      | rfl
      | (have h := hfail.1; simp [Stage.index, Stage.order, Stage.calls, h])
  · intro hnone
    have g1 := hnone .openDevice
    have g2 := hnone .queryCapabilities
    have g3 := hnone .setAccess
    have g4 := hnone .setFormat
    have g5 := hnone .setRate
    have g6 := hnone .setChannels
    have g7 := hnone .setPeriods
    have g8 := hnone .setBufferSize
    have g9 := hnone .commit
    simp only [Stage.fails, decide_eq_false_iff_not] at g1 g2 g3 g4 g5 g6 g7 g8 g9
    rw [ctor_eq, if_neg g1, if_neg g2, if_neg g3, if_neg g4, if_neg g5, if_neg g6, if_neg g7,
      if_neg g8, if_neg g9]
    refine ⟨⟨_, rfl⟩, ?_, ?_⟩
    · simp only [formatsAt_append, formatsAt_error_uptoCommit]
      rfl
    · simp only [calls_append, calls_uptoCommit, calls_uptoBuffer, calls_uptoPeriods]
      rfl
  · rintro ⟨s, hs⟩ j
    revert hs
    apply ctor_cases dev device bits channels freq bufsize
      (fun r => r.outcome = .returned s → j.fails dev = false)
    case hdone =>
      intro g1 g2 g3 g4 g5 g6 g7 g8 g9 _
      cases j <;> simp only [Stage.fails, decide_eq_false_iff_not] <;> assumption
    all_goals
      intros
      rename_i h
      exact absurd h (by simp [failAfter])

/-- Witness for C6: the device refuses the sample rate (-22) and would accept
everything else; the rate stage is the first to fail. -/
theorem ctor_stops_at_first_failing_stage_witness :
    (ALSAPlayer.ctor { Device.accepting 44100 4096 0 with snd_pcm_hw_params_set_rate_near := -22 }
        none 16 2 44100 4096).outcome = .exited EXIT_FAILURE ∧
    formatsAt .MSG_ERROR
      (ALSAPlayer.ctor { Device.accepting 44100 4096 0 with snd_pcm_hw_params_set_rate_near := -22 }
        none 16 2 44100 4096).trace = ["error setting sample rate"] ∧
    calls
      (ALSAPlayer.ctor { Device.accepting 44100 4096 0 with snd_pcm_hw_params_set_rate_near := -22 }
        none 16 2 44100 4096).trace
      = [.snd_pcm_hw_params_malloc, .snd_pcm_open "default", .snd_pcm_hw_params_any,
         .snd_pcm_hw_params_set_access, .snd_pcm_hw_params_set_format .SND_PCM_FORMAT_S16_LE,
         .snd_pcm_hw_params_set_rate_near 44100] :=
  have h := (ctor_stops_at_first_failing_stage
      { Device.accepting 44100 4096 0 with snd_pcm_hw_params_set_rate_near := -22 }
      none 16 2 44100 4096).1 .setRate
      (fun j hj => by cases j <;> first | rfl | exact absurd hj (by decide)) rfl
  ⟨h.1, h.2.1, h.2.2.1⟩

theorem formatsAt_note_uptoPeriods (dev : Device) (name : String) (bits : Nat)
    (channels freq : Int) :
    formatsAt .MSG_NOTE (uptoPeriods dev name bits channels freq)
      = formatsAt .MSG_NOTE (rateNote dev freq) := by
  have h1 : formatsAt .MSG_NOTE (uptoRate dev name bits freq) = [] := rfl
  have h2 : formatsAt .MSG_NOTE
      [Event.call (.snd_pcm_hw_params_set_channels (toUInt channels))
        dev.snd_pcm_hw_params_set_channels] = [] := rfl
  have h3 : formatsAt .MSG_NOTE
      [Event.call (.snd_pcm_hw_params_set_periods 4 0) dev.snd_pcm_hw_params_set_periods] = [] :=
    rfl
  simp only [uptoPeriods, uptoChannels, formatsAt_append, h1, h2, h3, List.nil_append,
    List.append_nil]

theorem formatsAt_note_rateNote (dev : Device) (freq : Int) :
    formatsAt .MSG_NOTE (rateNote dev freq) =
      if dev.nfreq = toUInt freq then []
      else ["%d Hz sample rate not supported by your hardware, using %d Hz instead"] := by
  unfold rateNote; split <;> rfl

theorem formatsAt_note_afterCommit (dev : Device) :
    formatsAt .MSG_NOTE (afterCommit dev) =
      if dev.snd_pcm_hw_params < 0 then [] else ["ALSA HW PCM info:"] := by
  unfold afterCommit; split <;> rfl

/-- The constructor from the buffer-size step on, when the earlier stages
succeeded. -/
theorem ctor_from_buffer (dev : Device) (device : Option String) (bits : Nat)
    (channels freq : Int) (bufsize : Nat)
    (hopen : 0 ≤ dev.snd_pcm_open) (hany : 0 ≤ dev.snd_pcm_hw_params_any)
    (haccess : 0 ≤ dev.snd_pcm_hw_params_set_access)
    (hformat : 0 ≤ dev.snd_pcm_hw_params_set_format)
    (hrate : 0 ≤ dev.snd_pcm_hw_params_set_rate_near)
    (hchannels : 0 ≤ dev.snd_pcm_hw_params_set_channels)
    (hperiods : 0 ≤ dev.snd_pcm_hw_params_set_periods) :
    ALSAPlayer.ctor dev device bits channels freq bufsize =
      if dev.snd_pcm_hw_params_set_buffer_size < 0
          ∧ dev.snd_pcm_hw_params_get_buffer_size < 0 then
        ⟨uptoPeriods dev (deviceName device) bits channels freq
          ++ infoNotes bits channels freq bufsize ++ bufferEvents dev bufsize
          ++ [.message .MSG_ERROR "error setting and getting buffer size (returned %ld)"
                [.nat dev.nbufsize], .exit EXIT_FAILURE],
         .exited EXIT_FAILURE⟩
      else
        ⟨uptoPeriods dev (deviceName device) bits channels freq
          ++ infoNotes bits channels freq bufsize ++ bufferEvents dev bufsize
          ++ [.call .snd_pcm_hw_params dev.snd_pcm_hw_params] ++ afterCommit dev,
         if dev.snd_pcm_hw_params < 0 then .exited EXIT_FAILURE
         else .returned
          { bits := bits, channels := channels, freq := freq,
            buf_size := if dev.snd_pcm_hw_params_set_buffer_size < 0 then dev.nbufsize
              else bufsize }⟩ := by
  rw [ctor_eq, if_neg (not_lt.mpr hopen), if_neg (not_lt.mpr hany), if_neg (not_lt.mpr haccess),
    if_neg (not_lt.mpr hformat), if_neg (not_lt.mpr hrate), if_neg (not_lt.mpr hchannels),
    if_neg (not_lt.mpr hperiods)]
  by_cases hb : dev.snd_pcm_hw_params_set_buffer_size < 0
      ∧ dev.snd_pcm_hw_params_get_buffer_size < 0
  · rw [if_pos hb, if_pos hb]
    rfl
  · rw [if_neg hb, if_neg hb]
    by_cases hc : dev.snd_pcm_hw_params < 0
    · rw [if_pos hc, if_pos hc]
      simp only [failAfter, uptoCommit, uptoBuffer, afterCommit, if_pos hc, List.append_assoc]
    · rw [if_neg hc, if_neg hc]
      simp only [uptoCommit, uptoBuffer, afterCommit, if_neg hc, List.append_assoc]

/-- C5: once the stages before it have succeeded, the buffer-size step of the
constructor does one of three things. (1) The device accepts the requested
size `b`: no fallback query, no substitution note, the commit follows, and
the sink that a successful commit yields has `getbufsize() = b`. (2) The
device rejects `b` and the fallback query succeeds with value `n`: between
the set call and the commit call there are exactly the query and one
note-level diagnostic, the substitution note, which occurs exactly once in
the whole construction, and the sink that a successful commit yields has
`getbufsize() = n`. (3) Both fail: the error-level diagnostic "error setting
and getting buffer size" is emitted, the process exits with `EXIT_FAILURE`,
and `snd_pcm_hw_params` is never called. -/
theorem ctor_buffer_size_negotiation (dev : Device) (device : Option String) (bits : Nat)
    (channels freq : Int) (bufsize : Nat)
    (hopen : 0 ≤ dev.snd_pcm_open) (hany : 0 ≤ dev.snd_pcm_hw_params_any)
    (haccess : 0 ≤ dev.snd_pcm_hw_params_set_access)
    (hformat : 0 ≤ dev.snd_pcm_hw_params_set_format)
    (hrate : 0 ≤ dev.snd_pcm_hw_params_set_rate_near)
    (hchannels : 0 ≤ dev.snd_pcm_hw_params_set_channels)
    (hperiods : 0 ≤ dev.snd_pcm_hw_params_set_periods) :
    (0 ≤ dev.snd_pcm_hw_params_set_buffer_size →
      (ALSAPlayer.ctor dev device bits channels freq bufsize).trace =
        uptoPeriods dev (deviceName device) bits channels freq
          ++ infoNotes bits channels freq bufsize
          ++ [.call (.snd_pcm_hw_params_set_buffer_size bufsize)
                dev.snd_pcm_hw_params_set_buffer_size,
              .call .snd_pcm_hw_params dev.snd_pcm_hw_params]
          ++ afterCommit dev ∧
      (ALSAPlayer.ctor dev device bits channels freq bufsize).outcome =
        (if dev.snd_pcm_hw_params < 0 then .exited EXIT_FAILURE
         else .returned { bits := bits, channels := channels, freq := freq,
                          buf_size := bufsize }) ∧
      (∀ s, (ALSAPlayer.ctor dev device bits channels freq bufsize).outcome = .returned s →
        s.getbufsize = bufsize) ∧
      "couldn't set buffersize to %ld, using default of %ld instead"
        ∉ formatsAt .MSG_NOTE (ALSAPlayer.ctor dev device bits channels freq bufsize).trace) ∧
    (dev.snd_pcm_hw_params_set_buffer_size < 0 → 0 ≤ dev.snd_pcm_hw_params_get_buffer_size →
      (ALSAPlayer.ctor dev device bits channels freq bufsize).trace =
        uptoPeriods dev (deviceName device) bits channels freq
          ++ infoNotes bits channels freq bufsize
          ++ [.call (.snd_pcm_hw_params_set_buffer_size bufsize)
                dev.snd_pcm_hw_params_set_buffer_size,
              .call .snd_pcm_hw_params_get_buffer_size dev.snd_pcm_hw_params_get_buffer_size,
              .message .MSG_NOTE "couldn't set buffersize to %ld, using default of %ld instead"
                [.nat bufsize, .nat dev.nbufsize],
              .call .snd_pcm_hw_params dev.snd_pcm_hw_params]
          ++ afterCommit dev ∧
      (ALSAPlayer.ctor dev device bits channels freq bufsize).outcome =
        (if dev.snd_pcm_hw_params < 0 then .exited EXIT_FAILURE
         else .returned { bits := bits, channels := channels, freq := freq,
                          buf_size := dev.nbufsize }) ∧
      (∀ s, (ALSAPlayer.ctor dev device bits channels freq bufsize).outcome = .returned s →
        s.getbufsize = dev.nbufsize) ∧
      (formatsAt .MSG_NOTE (ALSAPlayer.ctor dev device bits channels freq bufsize).trace).count
        "couldn't set buffersize to %ld, using default of %ld instead" = 1) ∧
    (dev.snd_pcm_hw_params_set_buffer_size < 0 → dev.snd_pcm_hw_params_get_buffer_size < 0 →
      (ALSAPlayer.ctor dev device bits channels freq bufsize).trace =
        uptoPeriods dev (deviceName device) bits channels freq
          ++ infoNotes bits channels freq bufsize
          ++ [.call (.snd_pcm_hw_params_set_buffer_size bufsize)
                dev.snd_pcm_hw_params_set_buffer_size,
              .call .snd_pcm_hw_params_get_buffer_size dev.snd_pcm_hw_params_get_buffer_size,
              .message .MSG_ERROR "error setting and getting buffer size (returned %ld)"
                [.nat dev.nbufsize],
              .exit EXIT_FAILURE] ∧
      (ALSAPlayer.ctor dev device bits channels freq bufsize).outcome = .exited EXIT_FAILURE ∧
      Call.snd_pcm_hw_params
        ∉ calls (ALSAPlayer.ctor dev device bits channels freq bufsize).trace) := by
  rw [ctor_from_buffer dev device bits channels freq bufsize hopen hany haccess hformat hrate
    hchannels hperiods]
  have hinfo : formatsAt .MSG_NOTE (infoNotes bits channels freq bufsize)
      = ["ALSA: sample/frame size %ld (bytes)", "ALSA: buffer size %ld (frames)"] := rfl
  refine ⟨fun hset => ?_, fun hset hget => ?_, fun hset hget => ?_⟩
  · have hs : ¬ dev.snd_pcm_hw_params_set_buffer_size < 0 := not_lt.mpr hset
    have hb : bufferEvents dev bufsize =
        [.call (.snd_pcm_hw_params_set_buffer_size bufsize)
          dev.snd_pcm_hw_params_set_buffer_size] := by
      simp only [bufferEvents, if_neg hs]
    rw [if_neg (fun h => hs h.1), hb]
    refine ⟨by simp only [List.append_assoc, List.cons_append, List.nil_append],
      by simp only [if_neg hs], ?_, ?_⟩
    · intro s h
      simp only [if_neg hs] at h
      split at h
      · cases h
      · cases h; rfl
    · simp only [formatsAt_append, formatsAt_note_uptoPeriods, formatsAt_note_rateNote, hinfo,
        formatsAt_note_afterCommit]
      have h0 : formatsAt .MSG_NOTE
          [Event.call (.snd_pcm_hw_params_set_buffer_size bufsize)
            dev.snd_pcm_hw_params_set_buffer_size] = [] := rfl
      have h1 : formatsAt .MSG_NOTE [Event.call .snd_pcm_hw_params dev.snd_pcm_hw_params] = [] :=
        rfl
      rw [h0, h1]
      split_ifs <;> decide
  · have hg : ¬ dev.snd_pcm_hw_params_get_buffer_size < 0 := not_lt.mpr hget
    have hb : bufferEvents dev bufsize =
        [.call (.snd_pcm_hw_params_set_buffer_size bufsize)
          dev.snd_pcm_hw_params_set_buffer_size,
         .call .snd_pcm_hw_params_get_buffer_size dev.snd_pcm_hw_params_get_buffer_size,
         .message .MSG_NOTE "couldn't set buffersize to %ld, using default of %ld instead"
           [.nat bufsize, .nat dev.nbufsize]] := by
      simp only [bufferEvents, if_pos hset, if_neg hg, bufferNote]
    rw [if_neg (fun h => hg h.2), hb]
    refine ⟨by simp only [List.append_assoc, List.cons_append, List.nil_append],
      by simp only [if_pos hset], ?_, ?_⟩
    · intro s h
      simp only [if_pos hset] at h
      split at h
      · cases h
      · cases h; rfl
    · simp only [formatsAt_append, formatsAt_note_uptoPeriods, formatsAt_note_rateNote, hinfo,
        formatsAt_note_afterCommit]
      have h0 : formatsAt .MSG_NOTE
          [Event.call (.snd_pcm_hw_params_set_buffer_size bufsize)
            dev.snd_pcm_hw_params_set_buffer_size,
           .call .snd_pcm_hw_params_get_buffer_size dev.snd_pcm_hw_params_get_buffer_size,
           .message .MSG_NOTE "couldn't set buffersize to %ld, using default of %ld instead"
             [.nat bufsize, .nat dev.nbufsize]]
          = ["couldn't set buffersize to %ld, using default of %ld instead"] := rfl
      have h1 : formatsAt .MSG_NOTE [Event.call .snd_pcm_hw_params dev.snd_pcm_hw_params] = [] :=
        rfl
      rw [h0, h1]
      split_ifs <;> decide
  · have hb : bufferEvents dev bufsize =
        [.call (.snd_pcm_hw_params_set_buffer_size bufsize)
          dev.snd_pcm_hw_params_set_buffer_size,
         .call .snd_pcm_hw_params_get_buffer_size dev.snd_pcm_hw_params_get_buffer_size] := by
      simp only [bufferEvents, if_pos hset, if_pos hget]
    rw [if_pos ⟨hset, hget⟩, hb]
    refine ⟨by simp only [List.append_assoc, List.cons_append, List.nil_append], rfl, ?_⟩
    simp only [calls_append, calls_uptoPeriods]
    have h0 : calls (infoNotes bits channels freq bufsize) = [] := rfl
    rw [h0]
    simp [calls, Event.call?]

/-- Witness for C5: the device rejects 4096 frames (-22) and reports 2048 on
the fallback query. -/
theorem ctor_buffer_size_negotiation_witness :
    (ALSAPlayer.ctor
        { Device.accepting 44100 2048 0 with snd_pcm_hw_params_set_buffer_size := -22 }
        none 16 2 44100 4096).outcome
      = .returned { bits := 16, channels := 2, freq := 44100, buf_size := 2048 } ∧
    (formatsAt .MSG_NOTE
      (ALSAPlayer.ctor
        { Device.accepting 44100 2048 0 with snd_pcm_hw_params_set_buffer_size := -22 }
        none 16 2 44100 4096).trace).count
        "couldn't set buffersize to %ld, using default of %ld instead" = 1 :=
  have h := (ctor_buffer_size_negotiation
      { Device.accepting 44100 2048 0 with snd_pcm_hw_params_set_buffer_size := -22 }
      none 16 2 44100 4096 (by decide) (by decide) (by decide) (by decide) (by decide)
      (by decide) (by decide)).2.1 (by decide) (by decide)
  ⟨h.2.1, h.2.2.2⟩

end AdPlay
